import Mathlib

/-!
Verification development for the ROA Chrono Party AI plugin
(`ROA_ChronoPartyAI.js`).  The JavaScript source is shallowly embedded:
JS numbers used as frame counters / tool ids become `Int`, tile distances
become `Nat`, HP percentages (`hpRate() * 100`) become `ℚ`, and the
side-effecting calls into the Chrono world adapter (`moveToward`,
`moveAway`, `sidestep`, `tryUseTool`) become explicit `Intent` values
collected in lists.  Stateful methods become pure state-passing
functions.
-/

/-- A map-grid position (JS character `x`/`y`). -/
structure Pos where
  x : Int
  y : Int
  deriving Repr, DecidableEq

/-- `ChronoCompat.distTiles` for two resolved characters:
manhattan distance `|dx| + |dy|`. -/
def distTiles (a b : Pos) : Nat :=
  (a.x - b.x).natAbs + (a.y - b.y).natAbs

/-- An enemy event as cached by the blackboard: its position and the
`_roaEnemyType` tag ("RANGED" or "MELEE", from `enemyTypeFromEnemyDb`). -/
structure Enemy where
  pos : Pos
  etype : String
  deriving Repr, DecidableEq

/-- Global plugin parameters (the `CFG` object). -/
structure Config where
  enabled : Bool
  thinkInterval : Int
  enemyScanInterval : Int
  defaultAggro : Nat
  healerHealThreshold : ℚ
  healerCriticalThreshold : ℚ
  healerBuffWindowFrames : Int
  deriving Repr, DecidableEq

/-- Per-actor AI configuration (the object built by `actorAiConfig`).
`role` and `stance` are the upper-cased notetag strings (with the
`|| "MELEE"` / `|| "AGGRESSIVE"` defaults already applied by
`actorAiConfig`); distances are tile counts; tool ids are numbers with
`0` meaning "unset". -/
structure AgentCfg where
  enabled : Bool
  role : String
  stance : String
  aggro : Nat
  leash : Nat
  preferredRange : Nat
  keepDistance : Nat
  protectRadius : Nat
  toolAttack : Int
  toolDefend : Int
  toolHeal : Int
  toolBuff : Int
  deriving Repr, DecidableEq

/-- The shared `Blackboard` state. -/
structure Blackboard where
  frame : Int
  enemyScanCd : Int
  enemies : List Enemy
  combatActive : Bool
  combatStartFrame : Int
  deriving Repr, DecidableEq

/-- `Blackboard.prototype.update`.  `scan` is the enemy list the world
adapter (`ChronoCompat.enemyCharacters()`) would return if the rescan
countdown fires this tick; `playerPos` is the leader's position.
The post-decrement `this._enemyScanCd-- <= 0` test reads the old value
and the branch then overwrites the countdown with the scan interval. -/
def Blackboard.update (cfg : Config) (bb : Blackboard) (scan : List Enemy)
    (playerPos : Pos) : Blackboard :=
  let frame := bb.frame + 1
  let doScan := bb.enemyScanCd ≤ 0
  let cd := if doScan then cfg.enemyScanInterval else bb.enemyScanCd - 1
  let enemies := if doScan then scan else bb.enemies
  let active := enemies.any (fun e => distTiles playerPos e.pos ≤ cfg.defaultAggro)
  let base : Blackboard :=
    { frame := frame, enemyScanCd := cd, enemies := enemies,
      combatActive := bb.combatActive, combatStartFrame := bb.combatStartFrame }
  if active && !bb.combatActive then
    { base with combatActive := true, combatStartFrame := frame }
  else if !active then
    { base with combatActive := false }
  else
    base

/-- Sample global config (plugin defaults). -/
def cfgEx : Config :=
  { enabled := true, thinkInterval := 8, enemyScanInterval := 15,
    defaultAggro := 6, healerHealThreshold := 70,
    healerCriticalThreshold := 35, healerBuffWindowFrames := 300 }

/-- C1: For every Blackboard update step, `combatActive` becomes true
exactly when some enemy in the cached (post-rescan) enemy list is within
the global aggro radius of the leader, becomes false exactly when none
are, and `combatStartFrame` is assigned the new tick only on the
false-to-true transition, never on later ticks of the same combat
window nor on a tick that ends or stays out of combat. -/
theorem C1_blackboard_combat_transitions (cfg : Config) (bb : Blackboard)
    (scan : List Enemy) (p : Pos) :
    ((Blackboard.update cfg bb scan p).combatActive =
      (Blackboard.update cfg bb scan p).enemies.any
        (fun e => distTiles p e.pos ≤ cfg.defaultAggro)) ∧
    (bb.combatActive = false → (Blackboard.update cfg bb scan p).combatActive = true →
      (Blackboard.update cfg bb scan p).combatStartFrame =
        (Blackboard.update cfg bb scan p).frame) ∧
    (bb.combatActive = true → (Blackboard.update cfg bb scan p).combatActive = true →
      (Blackboard.update cfg bb scan p).combatStartFrame = bb.combatStartFrame) ∧
    ((Blackboard.update cfg bb scan p).combatActive = false →
      (Blackboard.update cfg bb scan p).combatStartFrame = bb.combatStartFrame) := by
  simp only [Blackboard.update]
  generalize (if bb.enemyScanCd ≤ 0 then scan else bb.enemies) = es
  generalize (if bb.enemyScanCd ≤ 0 then cfg.enemyScanInterval else bb.enemyScanCd - 1) = cd
  cases hA : es.any (fun e => distTiles p e.pos ≤ cfg.defaultAggro) <;>
    cases hC : bb.combatActive <;>
    simp_all

/-- The loop body of `Controller.nearestInPool`: running best candidate
and best distance, seeded with `best = null`, `bestD = 9999`; a strict
`d < bestD` comparison keeps the first encountered minimum. -/
def nearestGo (ch : Pos) (best : Option Enemy) (bestD : Nat) :
    List Enemy → Option Enemy
  | [] => best
  | e :: rest =>
    let d := distTiles ch e.pos
    if d < bestD then nearestGo ch (some e) d rest
    else nearestGo ch best bestD rest

/-- `Controller.nearestInPool`. -/
def nearestInPool (ch : Pos) (pool : List Enemy) : Option Enemy :=
  nearestGo ch none 9999 pool

/-- The pool the RANGED branch of `Controller.pickTarget` scans:
enemies tagged RANGED when any exist, else all enemies. -/
def rangedPool (enemies : List Enemy) : List Enemy :=
  let ranged := enemies.filter (fun e => e.etype = "RANGED")
  if ranged.length > 0 then ranged else enemies

/-- `Controller.pickTarget`. -/
def pickTarget (role : String) (ch : Pos) (enemies : List Enemy) :
    Option Enemy :=
  if enemies.length = 0 then none
  else if role = "RANGED" then nearestInPool ch (rangedPool enemies)
  else nearestInPool ch enemies

/-- Modelled from the claim text (not the source): the nearest enemy by
manhattan distance, ties broken by the first encountered minimum in scan
order, with no sentinel cap on the distance. -/
def specNearestGo (ch : Pos) (best : Option Enemy) :
    List Enemy → Option Enemy
  | [] => best
  | e :: rest =>
    match best with
    | none => specNearestGo ch (some e) rest
    | some b =>
      if distTiles ch e.pos < distTiles ch b.pos then
        specNearestGo ch (some e) rest
      else specNearestGo ch (some b) rest

/-- Modelled from the claim text: first-encountered nearest enemy. -/
def specNearest (ch : Pos) (pool : List Enemy) : Option Enemy :=
  specNearestGo ch none pool

/-- The source loop (seeded with the `9999` sentinel) agrees with the
claim's "first encountered nearest" scan whenever either some remaining
enemy is closer than the sentinel or a best candidate is already held. -/
lemma nearestGo_eq_specNearestGo (ch : Pos) :
    ∀ (pool : List Enemy) (best sb : Option Enemy) (bestD : Nat),
      ((best = none ∧ bestD = 9999 ∧
          (sb = none ∨ ∃ s, sb = some s ∧ 9999 ≤ distTiles ch s.pos)) ∨
        (∃ b, best = some b ∧ bestD = distTiles ch b.pos ∧
          distTiles ch b.pos < 9999 ∧ sb = some b)) →
      ((∃ e ∈ pool, distTiles ch e.pos < 9999) ∨ best ≠ none) →
      nearestGo ch best bestD pool = specNearestGo ch sb pool := by
  intro pool
  induction pool with
  | nil =>
    intro best sb bestD hinv hex
    rcases hinv with ⟨hb, _, _⟩ | ⟨b, hb, _, _, hs⟩
    · rcases hex with ⟨e, he, _⟩ | hne
      · simp at he
      · exact absurd hb hne
    · subst hb; subst hs
      rfl
  | cons e rest ih =>
    intro best sb bestD hinv hex
    rcases hinv with ⟨hb, hd, hs⟩ | ⟨b, hb, hd, hlt, hs⟩
    · subst hb; subst hd
      have hex2 : ¬ distTiles ch e.pos < 9999 →
          (∃ x ∈ rest, distTiles ch x.pos < 9999) ∨
            (none : Option Enemy) ≠ none := by
        intro h9
        rcases hex with ⟨x, hx, hxd⟩ | hne
        · rcases List.mem_cons.mp hx with hxe | hxr
          · subst hxe; exact absurd hxd h9
          · exact Or.inl ⟨x, hxr, hxd⟩
        · exact absurd rfl hne
      rcases hs with hs | ⟨s, hs, hge⟩
      · subst hs
        by_cases h9 : distTiles ch e.pos < 9999
        · simp only [nearestGo, specNearestGo, if_pos h9]
          exact ih (some e) (some e) _
            (Or.inr ⟨e, rfl, rfl, h9, rfl⟩) (Or.inr (by simp))
        · simp only [nearestGo, specNearestGo, if_neg h9]
          exact ih none (some e) 9999
            (Or.inl ⟨rfl, rfl, Or.inr ⟨e, rfl, Nat.le_of_not_lt h9⟩⟩)
            (hex2 h9)
      · subst hs
        by_cases h9 : distTiles ch e.pos < 9999
        · have hlt2 : distTiles ch e.pos < distTiles ch s.pos :=
            lt_of_lt_of_le h9 hge
          simp only [nearestGo, specNearestGo, if_pos h9, if_pos hlt2]
          exact ih (some e) (some e) _
            (Or.inr ⟨e, rfl, rfl, h9, rfl⟩) (Or.inr (by simp))
        · simp only [nearestGo, specNearestGo, if_neg h9]
          by_cases h2 : distTiles ch e.pos < distTiles ch s.pos
          · simp only [if_pos h2]
            exact ih none (some e) 9999
              (Or.inl ⟨rfl, rfl, Or.inr ⟨e, rfl, Nat.le_of_not_lt h9⟩⟩)
              (hex2 h9)
          · simp only [if_neg h2]
            exact ih none (some s) 9999
              (Or.inl ⟨rfl, rfl, Or.inr ⟨s, rfl, hge⟩⟩)
              (hex2 h9)
    · subst hb; subst hs; subst hd
      by_cases h2 : distTiles ch e.pos < distTiles ch b.pos
      · simp only [nearestGo, specNearestGo, if_pos h2]
        exact ih (some e) (some e) _
          (Or.inr ⟨e, rfl, rfl, lt_trans h2 hlt, rfl⟩) (Or.inr (by simp))
      · simp only [nearestGo, specNearestGo, if_neg h2]
        exact ih (some b) (some b) _
          (Or.inr ⟨b, rfl, rfl, hlt, rfl⟩) (Or.inr (by simp))

/-- C2 counterexample: a non-empty enemy list on which the RANGED
target selector returns none — the single enemy sits at manhattan
distance 10000, which never beats the loop's `9999` seed. -/
theorem C2_ranged_far_enemy_counterexample :
    pickTarget "RANGED" { x := 0, y := 0 }
        [{ pos := { x := 10000, y := 0 }, etype := "MELEE" }] = none ∧
      ([{ pos := { x := 10000, y := 0 }, etype := "MELEE" }] : List Enemy)
        ≠ [] := by
  constructor
  · decide
  · decide

/-- C2 (amended): for the RANGED role the selector returns none on an
empty list, and on any list in which some enemy of the scanned pool
(RANGED-tagged enemies when any exist, otherwise all) lies at distance
below the `9999` sentinel, it returns the first encountered nearest
enemy of that pool. -/
theorem C2_ranged_target_selection (ch : Pos) (enemies : List Enemy)
    (hne : enemies ≠ [])
    (hreach : ∃ e ∈ rangedPool enemies, distTiles ch e.pos < 9999) :
    pickTarget "RANGED" ch enemies = specNearest ch (rangedPool enemies) := by
  unfold pickTarget
  rw [if_neg (by simpa using hne), if_pos rfl]
  exact nearestGo_eq_specNearestGo ch (rangedPool enemies) none none 9999
    (Or.inl ⟨rfl, rfl, Or.inl rfl⟩) (Or.inl hreach)

/-- Closed instance of C2 (amended): mixed enemy types; the selector
agrees with the claim's first-encountered-nearest scan over the
RANGED-tagged pool. -/
theorem C2_ranged_target_selection_witness :
    pickTarget "RANGED" { x := 0, y := 0 }
        [{ pos := { x := 1, y := 0 }, etype := "MELEE" },
         { pos := { x := 2, y := 1 }, etype := "RANGED" },
         { pos := { x := 0, y := 3 }, etype := "RANGED" }] =
      specNearest { x := 0, y := 0 }
        (rangedPool
          [{ pos := { x := 1, y := 0 }, etype := "MELEE" },
           { pos := { x := 2, y := 1 }, etype := "RANGED" },
           { pos := { x := 0, y := 3 }, etype := "RANGED" }]) :=
  C2_ranged_target_selection { x := 0, y := 0 }
    [{ pos := { x := 1, y := 0 }, etype := "MELEE" },
     { pos := { x := 2, y := 1 }, etype := "RANGED" },
     { pos := { x := 0, y := 3 }, etype := "RANGED" }]
    (by decide) (by decide)

/-- Closed instance of C1: one enemy steps into aggro range on frame 1;
the rising edge stamps `combatStartFrame` with the new frame. -/
theorem C1_blackboard_combat_transitions_witness :
    (Blackboard.update cfgEx
      { frame := 0, enemyScanCd := 0, enemies := [],
        combatActive := false, combatStartFrame := 0 }
      [{ pos := { x := 3, y := 0 }, etype := "MELEE" }]
      { x := 0, y := 0 }).combatStartFrame = 1 :=
  (C1_blackboard_combat_transitions cfgEx
      { frame := 0, enemyScanCd := 0, enemies := [],
        combatActive := false, combatStartFrame := 0 }
      [{ pos := { x := 3, y := 0 }, etype := "MELEE" }]
      { x := 0, y := 0 }).2.1 rfl (by decide)

/-- A party actor as the healer/tank logic sees it: `actor` is none when
`$gameActors.actor(id)` fails to resolve; `role` is the notetag role
from `actorAiConfig` (upper-cased, defaulted to "MELEE" when absent);
`hpPct` is `hpRate() * 100`; `charPos` is none when
`ChronoCompat.characterForActorId` cannot resolve a map character. -/
structure ActorInfo where
  role : String
  dead : Bool
  hpPct : ℚ
  deriving Repr, DecidableEq

/-- One entry of `$gameParty.members()` (scan order = party order). -/
structure PartyMember where
  id : Int
  actor : Option ActorInfo
  charPos : Option Pos
  deriving Repr, DecidableEq

/-- `$gameActors.actor(id)` restricted to the party roster. -/
def actorOf (members : List PartyMember) (id : Int) : Option ActorInfo :=
  (members.find? (fun m => m.id == id)).bind (fun m => m.actor)

/-- `ChronoCompat.characterForActorId(id)`. -/
def charOf (members : List PartyMember) (id : Int) : Option Pos :=
  (members.find? (fun m => m.id == id)).bind (fun m => m.charPos)

/-- The three-way role classification of the `buildHealerBuffQueue`
loop: `HEALER` first, then `TANK`/`MELEE`, everything else lands in the
ranged bucket. -/
inductive BuffGroup where
  | melee
  | ranged
  | healer
  deriving Repr, DecidableEq

/-- Classification used by the loop body of `buildHealerBuffQueue`:
`if (r === HEALER) ... else if (r === TANK || r === MELEE) ... else ...`. -/
def buffGroupOf (r : String) : BuffGroup :=
  if r = "HEALER" then BuffGroup.healer
  else if r = "TANK" ∨ r = "MELEE" then BuffGroup.melee
  else BuffGroup.ranged

/-- The grouping loop of `buildHealerBuffQueue`: splits the roster into
(melee/tank ids, ranged ids, healer ids), preserving scan order and
skipping unresolvable actors. -/
def healerGroups : List PartyMember → List Int × List Int × List Int
  | [] => ([], [], [])
  | m :: rest =>
    let g := healerGroups rest
    match m.actor with
    | none => g
    | some a =>
      match buffGroupOf a.role with
      | BuffGroup.healer => (g.1, g.2.1, m.id :: g.2.2)
      | BuffGroup.melee => (m.id :: g.1, g.2.1, g.2.2)
      | BuffGroup.ranged => (g.1, m.id :: g.2.1, g.2.2)

/-- `Controller.buildHealerBuffQueue`: leader (when the party has one,
id `0` models the absent leader) then melee/tank, ranged, other
healers, with the leader filtered out of the later groups. -/
def buildHealerBuffQueue (leaderId : Int) (members : List PartyMember) :
    List Int :=
  let g := healerGroups members
  (if leaderId ≠ 0 then [leaderId] else []) ++
    g.1.filter (fun id => id != leaderId) ++
    g.2.1.filter (fun id => id != leaderId) ++
    g.2.2.filter (fun id => id != leaderId)

/-- Healer-only controller state (`_buffedThisCombat`, `_buffQueue`,
`_combatStartFrameSeen`). -/
structure HealerCombatState where
  buffed : List Int
  buffQueue : List Int
  combatStartFrameSeen : Int
  deriving Repr, DecidableEq

/-- The combat-window maintenance step at the top of
`Controller.actHealer`: while combat is active, a combat-start frame
differing from the last one seen rebuilds the queue and clears the
buffed set. -/
def healerSyncWindow (bb : Blackboard) (leaderId : Int)
    (members : List PartyMember) (s : HealerCombatState) :
    HealerCombatState :=
  if bb.combatActive && (s.combatStartFrameSeen != bb.combatStartFrame) then
    { combatStartFrameSeen := bb.combatStartFrame, buffed := [],
      buffQueue := buildHealerBuffQueue leaderId members }
  else s

/-- A role string is one of the four documented values. -/
def knownRole (r : String) : Bool :=
  r == "RANGED" || r == "MELEE" || r == "TANK" || r == "HEALER"

/-- Every resolvable member of the roster carries a known role. -/
def allKnownRoles (members : List PartyMember) : Bool :=
  members.all (fun m =>
    match m.actor with
    | none => true
    | some a => knownRole a.role)

/-- Claim-side group: members whose role is TANK or MELEE. -/
def meleeTankIds (members : List PartyMember) : List Int :=
  members.filterMap (fun m => m.actor.bind (fun a =>
    if a.role = "TANK" ∨ a.role = "MELEE" then some m.id else none))

/-- Claim-side group: members whose role is RANGED. -/
def rangedIds (members : List PartyMember) : List Int :=
  members.filterMap (fun m => m.actor.bind (fun a =>
    if a.role = "RANGED" then some m.id else none))

/-- Claim-side group: members whose role is HEALER. -/
def healerIds (members : List PartyMember) : List Int :=
  members.filterMap (fun m => m.actor.bind (fun a =>
    if a.role = "HEALER" then some m.id else none))

/-- On rosters whose roles are all known, the grouping loop computes
exactly the by-role groups of the claim. -/
lemma healerGroups_eq_spec (members : List PartyMember)
    (h : allKnownRoles members = true) :
    healerGroups members =
      (meleeTankIds members, rangedIds members, healerIds members) := by
  induction members with
  | nil => rfl
  | cons m rest ih =>
    rw [allKnownRoles, List.all_cons, Bool.and_eq_true] at h
    obtain ⟨h1, h2⟩ := h
    have ihr := ih h2
    cases hma : m.actor with
    | none =>
      simp only [healerGroups, hma, ihr, meleeTankIds, rangedIds,
        healerIds, List.filterMap_cons, Option.bind]
    | some a =>
      rw [hma] at h1
      have hr : ((a.role = "RANGED" ∨ a.role = "MELEE") ∨
          a.role = "TANK") ∨ a.role = "HEALER" := by
        simpa [knownRole] using h1
      rcases hr with ((hr | hr) | hr) | hr <;>
        simp +decide only [healerGroups, hma, ihr, meleeTankIds,
          rangedIds, healerIds, List.filterMap_cons, Option.bind,
          buffGroupOf, hr] <;>
        simp +decide

/-- C3: for a roster of known roles and a real leader, the healer buff
queue is `[leader] ++ melee/tank ids ++ ranged ids ++ other healer ids`
in that order with the leader removed from the later groups, and during
an active combat window the queue (with a cleared buffed-set) is
rebuilt by `actHealer` exactly when the observed combat-start frame
differs from the blackboard's. -/
theorem C3_healer_buff_queue (bb : Blackboard) (leaderId : Int)
    (members : List PartyMember) (s : HealerCombatState)
    (hroles : allKnownRoles members = true)
    (hleader : leaderId ≠ 0)
    (hactive : bb.combatActive = true) :
    (buildHealerBuffQueue leaderId members =
      leaderId ::
        ((meleeTankIds members).filter (fun id => id != leaderId) ++
          (rangedIds members).filter (fun id => id != leaderId) ++
          (healerIds members).filter (fun id => id != leaderId))) ∧
    (s.combatStartFrameSeen ≠ bb.combatStartFrame →
      healerSyncWindow bb leaderId members s =
        { buffed := [], buffQueue := buildHealerBuffQueue leaderId members,
          combatStartFrameSeen := bb.combatStartFrame }) ∧
    (s.combatStartFrameSeen = bb.combatStartFrame →
      healerSyncWindow bb leaderId members s = s) := by
  refine ⟨?_, ?_, ?_⟩
  · unfold buildHealerBuffQueue
    simp only [healerGroups_eq_spec members hroles, if_pos hleader]
    simp [List.append_assoc]
  · intro hne
    unfold healerSyncWindow
    simp [hactive, hne]
  · intro heq
    unfold healerSyncWindow
    simp [heq]

/-- Sample roster: leader 1 (melee), tank 2, ranged 3, healer 4,
second healer 5. -/
def membersEx : List PartyMember :=
  [{ id := 1, actor := some { role := "MELEE", dead := false, hpPct := 100 },
     charPos := some { x := 0, y := 0 } },
   { id := 2, actor := some { role := "TANK", dead := false, hpPct := 90 },
     charPos := some { x := 1, y := 0 } },
   { id := 3, actor := some { role := "RANGED", dead := false, hpPct := 80 },
     charPos := some { x := 2, y := 0 } },
   { id := 4, actor := some { role := "HEALER", dead := false, hpPct := 70 },
     charPos := some { x := 3, y := 0 } },
   { id := 5, actor := some { role := "HEALER", dead := false, hpPct := 60 },
     charPos := some { x := 4, y := 0 } }]

/-- Closed instance of C3: on the sample roster a fresh combat window
(seen frame 0, start frame 7) rebuilds the queue and clears the
buffed-set. -/
theorem C3_healer_buff_queue_witness :
    healerSyncWindow
        { frame := 9, enemyScanCd := 3, enemies := [],
          combatActive := true, combatStartFrame := 7 }
        1 membersEx { buffed := [2], buffQueue := [], combatStartFrameSeen := 0 } =
      { buffed := [],
        buffQueue := buildHealerBuffQueue 1 membersEx,
        combatStartFrameSeen := 7 } :=
  (C3_healer_buff_queue
      { frame := 9, enemyScanCd := 3, enemies := [],
        combatActive := true, combatStartFrame := 7 }
      1 membersEx
      { buffed := [2], buffQueue := [], combatStartFrameSeen := 0 }
      (by decide) (by decide) rfl).2.1 (by decide)

/-- Movement intents sent to `ChronoCompat` (`moveToward`, `moveAway`,
`sidestep`). -/
inductive MoveKind where
  | toward
  | away
  | sidestep
  deriving Repr, DecidableEq

/-- What a movement intent is aimed at. -/
inductive TargetRef where
  | enemy (e : Enemy)
  | allyChar (id : Int)
  | player
  deriving Repr, DecidableEq

/-- One call into the world adapter: a movement intent or a
`tryUseTool(char, toolId, cmdType)` ability intent. -/
inductive Intent where
  | move (k : MoveKind) (t : TargetRef)
  | tool (toolId : Int) (cmdType : Int)
  deriving Repr, DecidableEq

/-- Is this intent a movement intent? -/
def Intent.isMove : Intent → Bool
  | Intent.move _ _ => true
  | Intent.tool _ _ => false

/-- Is this intent an ability (tool) intent? -/
def Intent.isTool : Intent → Bool
  | Intent.move _ _ => false
  | Intent.tool _ _ => true

/-- Number of movement intents in an intent list. -/
def countMoves (l : List Intent) : Nat := (l.filter Intent.isMove).length

/-- Number of ability intents in an intent list. -/
def countTools (l : List Intent) : Nat := (l.filter Intent.isTool).length

/-- `Controller.lowestHpAlly`: scans the party, skips unresolvable and
dead actors, keeps the first strict minimum of HP percentage; returns
the actor id and its HP percentage. -/
def lowestHpAlly (members : List PartyMember) : Option (Int × ℚ) :=
  members.foldl (fun best m =>
    match m.actor with
    | none => best
    | some a =>
      if a.dead then best
      else
        match best with
        | none => some (m.id, a.hpPct)
        | some b => if a.hpPct < b.2 then some (m.id, a.hpPct) else best)
    none

/-- Everything a healer think reads from its surroundings: global and
per-agent config, the blackboard, the current leader id, the party
roster, the leader's position, and the healer's own resolved map
character and actor (none/false when unresolvable). -/
structure HealerInput where
  cfgG : Config
  cfg : AgentCfg
  bb : Blackboard
  leaderId : Int
  members : List PartyMember
  playerPos : Pos
  selfPos : Option Pos
  selfActor : Bool
  deriving Repr, DecidableEq

/-- `Controller.doHealerHeal`: bail out when neither heal nor attack
tool is configured or a handle is unresolvable; if the target's map
character resolves and is beyond preferred range, only move toward it;
otherwise trigger the heal tool (command type 1) when configured. -/
def doHealerHeal (inp : HealerInput) (uc : Pos) (targetId : Int) :
    List Intent :=
  if inp.cfg.toolHeal = 0 ∧ inp.cfg.toolAttack = 0 then []
  else
    match actorOf inp.members targetId with
    | none => []
    | some _ =>
      match charOf inp.members targetId with
      | some tc =>
        if distTiles uc tc > inp.cfg.preferredRange then
          [Intent.move MoveKind.toward (TargetRef.allyChar targetId)]
        else if inp.cfg.toolHeal > 0 then [Intent.tool inp.cfg.toolHeal 1]
        else []
      | none =>
        if inp.cfg.toolHeal > 0 then [Intent.tool inp.cfg.toolHeal 1]
        else []

/-- `Controller.doHealerBuff`: bail out when the buff tool is unset or a
handle is unresolvable; move toward an out-of-range resolved target;
otherwise trigger the buff tool and mark the target as buffed (the
returned flag). -/
def doHealerBuff (inp : HealerInput) (uc : Pos) (targetId : Int) :
    List Intent × Bool :=
  if inp.cfg.toolBuff = 0 then ([], false)
  else
    match actorOf inp.members targetId with
    | none => ([], false)
    | some _ =>
      match charOf inp.members targetId with
      | some tc =>
        if distTiles uc tc > inp.cfg.preferredRange then
          ([Intent.move MoveKind.toward (TargetRef.allyChar targetId)], false)
        else ([Intent.tool inp.cfg.toolBuff 1], true)
      | none => ([Intent.tool inp.cfg.toolBuff 1], true)

/-- Which branch of `actHealer` fired (for stating claims about the
decision order; carries no information the source control flow does not
determine). -/
inductive HealerBranch where
  | unresolved
  | heal (critical : Bool) (target : Int)
  | buff (target : Int)
  | defend
  | reposition
  deriving Repr, DecidableEq

/-- Result of one healer ACT think: the adapter calls issued, the next
FSM state, the updated healer combat state, and the branch taken. -/
structure HealerResult where
  intents : List Intent
  nextState : String
  st : HealerCombatState
  branch : HealerBranch
  deriving Repr, DecidableEq

/-- Tail of `actHealer` after heals and buffs: defend when an enemy is
within 2 tiles (defend tool, else attack tool, else move away),
otherwise reposition toward the leader when farther than 3 tiles. -/
def healerDefendPhase (inp : HealerInput) (uc : Pos)
    (s1 : HealerCombatState) : HealerResult :=
  match inp.bb.enemies.find? (fun e => decide (distTiles uc e.pos ≤ 2)) with
  | some closeEnemy =>
    { intents :=
        if inp.cfg.toolDefend > 0 then [Intent.tool inp.cfg.toolDefend 0]
        else if inp.cfg.toolAttack > 0 then [Intent.tool inp.cfg.toolAttack 0]
        else [Intent.move MoveKind.away (TargetRef.enemy closeEnemy)],
      nextState := "ACT", st := s1, branch := HealerBranch.defend }
  | none =>
    { intents :=
        if distTiles uc inp.playerPos > 3 then
          [Intent.move MoveKind.toward TargetRef.player]
        else [],
      nextState := "ACQUIRE", st := s1, branch := HealerBranch.reposition }

/-- The scripted-buff phase of `actHealer`: while combat is active and
within the buff window, buff the first queued ally not yet buffed;
otherwise fall through to defense/reposition. -/
def healerBuffPhase (inp : HealerInput) (uc : Pos)
    (s1 : HealerCombatState) : HealerResult :=
  if inp.bb.combatActive then
    if inp.bb.frame - inp.bb.combatStartFrame ≤ inp.cfgG.healerBuffWindowFrames then
      match s1.buffQueue.find? (fun id => !(s1.buffed.contains id)) with
      | some next =>
        let r := doHealerBuff inp uc next
        { intents := r.1, nextState := "ACT",
          st := if r.2 then { s1 with buffed := s1.buffed ++ [next] } else s1,
          branch := HealerBranch.buff next }
      | none => healerDefendPhase inp uc s1
    else healerDefendPhase inp uc s1
  else healerDefendPhase inp uc s1

/-- `Controller.actHealer`: abort to FOLLOW on unresolvable handles;
sync the combat window state; critical heal, normal heal, scripted
buff, defend, reposition — first match wins. -/
def actHealer (inp : HealerInput) (s : HealerCombatState) : HealerResult :=
  match inp.selfActor, inp.selfPos with
  | true, some uc =>
    let s1 := healerSyncWindow inp.bb inp.leaderId inp.members s
    match lowestHpAlly inp.members with
    | some l =>
      if l.2 ≤ inp.cfgG.healerCriticalThreshold then
        { intents := doHealerHeal inp uc l.1, nextState := "ACT", st := s1,
          branch := HealerBranch.heal true l.1 }
      else if l.2 ≤ inp.cfgG.healerHealThreshold then
        { intents := doHealerHeal inp uc l.1, nextState := "ACT", st := s1,
          branch := HealerBranch.heal false l.1 }
      else healerBuffPhase inp uc s1
    | none => healerBuffPhase inp uc s1
  | _, _ =>
    { intents := [], nextState := "FOLLOW", st := s,
      branch := HealerBranch.unresolved }

/-- C4: whenever the living ally with lowest HP percentage is at or
below the critical threshold, the healer think takes the critical-heal
branch on exactly that ally: the issued intents are those of
`doHealerHeal` (never a buff), the buffed-set is left as the window
sync produced it, and no buff is recorded — regardless of combat
activity, buff window, or pending queue entries. -/
theorem C4_critical_heal_preempts_buff (inp : HealerInput)
    (s : HealerCombatState) (uc : Pos) (l : Int × ℚ)
    (hact : inp.selfActor = true) (hpos : inp.selfPos = some uc)
    (hlow : lowestHpAlly inp.members = some l)
    (hcrit : l.2 ≤ inp.cfgG.healerCriticalThreshold) :
    actHealer inp s =
      { intents := doHealerHeal inp uc l.1, nextState := "ACT",
        st := healerSyncWindow inp.bb inp.leaderId inp.members s,
        branch := HealerBranch.heal true l.1 } := by
  unfold actHealer
  rw [hact, hpos]
  simp [hlow, hcrit]

/-- Sample healer agent config (all four tools wired). -/
def healerCfgEx : AgentCfg :=
  { enabled := true, role := "HEALER", stance := "AGGRESSIVE",
    aggro := 6, leash := 10, preferredRange := 4, keepDistance := 4,
    protectRadius := 5, toolAttack := 5, toolDefend := 9,
    toolHeal := 12, toolBuff := 13 }

/-- Roster with a critically wounded ranged ally (30% HP). -/
def membersCritEx : List PartyMember :=
  [{ id := 1, actor := some { role := "MELEE", dead := false, hpPct := 100 },
     charPos := some { x := 0, y := 0 } },
   { id := 2, actor := some { role := "RANGED", dead := false, hpPct := 30 },
     charPos := some { x := 1, y := 0 } },
   { id := 3, actor := some { role := "HEALER", dead := false, hpPct := 80 },
     charPos := some { x := 2, y := 0 } }]

/-- Healer input: combat active since frame 7, now frame 10 (buff
window wide open), healer resolved at (2,0). -/
def inpC4 : HealerInput :=
  { cfgG := cfgEx, cfg := healerCfgEx,
    bb := { frame := 10, enemyScanCd := 3, enemies := [],
            combatActive := true, combatStartFrame := 7 },
    leaderId := 1, members := membersCritEx,
    playerPos := { x := 0, y := 0 },
    selfPos := some { x := 2, y := 0 }, selfActor := true }

/-- Closed instance of C4: combat active, buff window open, queue still
holding unbuffed allies — yet the 30%-HP ally pre-empts everything. -/
theorem C4_critical_heal_preempts_buff_witness :
    actHealer inpC4
        { buffed := [], buffQueue := [1, 2], combatStartFrameSeen := 7 } =
      { intents := doHealerHeal inpC4 { x := 2, y := 0 } 2,
        nextState := "ACT",
        st := healerSyncWindow inpC4.bb inpC4.leaderId inpC4.members
          { buffed := [], buffQueue := [1, 2], combatStartFrameSeen := 7 },
        branch := HealerBranch.heal true 2 } :=
  C4_critical_heal_preempts_buff inpC4
    { buffed := [], buffQueue := [1, 2], combatStartFrameSeen := 7 }
    { x := 2, y := 0 } (2, 30) rfl rfl (by decide) (by decide)

/-- C10: when the heal/buff target's actor exists but its map character
does not resolve, the out-of-range move-toward deferral is skipped and
the configured tool fires immediately (and the buff marks the target as
buffed). -/
theorem C10_unresolved_target_char_immediate_tool (inp : HealerInput)
    (uc : Pos) (targetId : Int) (a : ActorInfo)
    (hactor : actorOf inp.members targetId = some a)
    (hchar : charOf inp.members targetId = none) :
    (inp.cfg.toolHeal > 0 →
      doHealerHeal inp uc targetId = [Intent.tool inp.cfg.toolHeal 1]) ∧
    (inp.cfg.toolBuff ≠ 0 →
      doHealerBuff inp uc targetId = ([Intent.tool inp.cfg.toolBuff 1], true)) := by
  constructor
  · intro hh
    have hguard : ¬ (inp.cfg.toolHeal = 0 ∧ inp.cfg.toolAttack = 0) := by
      intro hc
      obtain ⟨h0, _⟩ := hc
      omega
    unfold doHealerHeal
    rw [if_neg hguard, hactor, hchar]
    simp [hh]
  · intro hb
    unfold doHealerBuff
    rw [if_neg hb, hactor, hchar]

/-- Roster in which actor 6 resolves as an actor but has no map
character. -/
def membersC10 : List PartyMember :=
  [{ id := 1, actor := some { role := "MELEE", dead := false, hpPct := 100 },
     charPos := some { x := 0, y := 0 } },
   { id := 6, actor := some { role := "RANGED", dead := false, hpPct := 90 },
     charPos := none }]

/-- Healer input for the unresolvable-target-character scenario. -/
def inpC10 : HealerInput :=
  { cfgG := cfgEx, cfg := healerCfgEx,
    bb := { frame := 10, enemyScanCd := 3, enemies := [],
            combatActive := true, combatStartFrame := 7 },
    leaderId := 1, members := membersC10,
    playerPos := { x := 0, y := 0 },
    selfPos := some { x := 0, y := 0 }, selfActor := true }

/-- Closed instance of C10: target 6 has no map character; heal and
buff both fire their tools immediately. -/
theorem C10_unresolved_target_char_immediate_tool_witness :
    doHealerHeal inpC10 { x := 0, y := 0 } 6 = [Intent.tool 12 1] ∧
    doHealerBuff inpC10 { x := 0, y := 0 } 6 = ([Intent.tool 13 1], true) :=
  ⟨(C10_unresolved_target_char_immediate_tool inpC10 { x := 0, y := 0 } 6
      { role := "RANGED", dead := false, hpPct := 90 }
      (by decide) (by decide)).1 (by decide),
   (C10_unresolved_target_char_immediate_tool inpC10 { x := 0, y := 0 } 6
      { role := "RANGED", dead := false, hpPct := 90 }
      (by decide) (by decide)).2 (by decide)⟩

/-- The enable/resolve/countdown gate at the top of
`Controller.update` (everything before the leash check and state
switch).  `fsmState` is the controller's `_state`, which this code
never reads; `resolvable` is whether both `this.char()` and
`this.actor()` resolve.  `if (this._thinkCd-- > 0) return;` tests the
old countdown and decrements; when the old value is `≤ 0` the next line
overwrites the countdown with `CFG.thinkInterval`.  Returns the new
`_thinkCd` and whether the decision logic below the gate runs.  No
think handler and no role action below the gate ever writes
`_thinkCd`, so the countdown after a full `update()` call is exactly
the first component. -/
def controllerUpdateGate (cfgG : Config) (agentEnabled resolvable : Bool)
    (fsmState : String) (thinkCd : Int) : Int × Bool :=
  if !(cfgG.enabled && agentEnabled) then (thinkCd, false)
  else if !resolvable then (thinkCd, false)
  else if thinkCd > 0 then (thinkCd - 1, false)
  else (cfgG.thinkInterval, true)

/-- `Math.floor(Math.random() * CFG.thinkInterval)`: the creation-time
jitter, with `r` the random draw in `[0, 1)`. -/
def initThinkCd (cfgG : Config) (r : ℚ) : Int :=
  ⌊r * (cfgG.thinkInterval : ℚ)⌋

/-- C5 counterexample: with the default think interval 8, a countdown
of 0 (inside `[0, 8)`) becomes 8 after one enabled, resolvable update —
the reset writes `thinkInterval` itself, which is outside
`[0, thinkInterval)`. -/
theorem C5_counterexample_reset_leaves_interval :
    (0 : Int) ≤ 0 ∧ (0 : Int) < cfgEx.thinkInterval ∧
      ¬ ((controllerUpdateGate cfgEx true true "FOLLOW" 0).1 <
          cfgEx.thinkInterval) :=
  ⟨le_refl 0, by decide, by decide⟩

/-- C5 (amended): the think countdown stays within the closed interval
`[0, thinkInterval]`: the creation jitter lands in `[0, thinkInterval)`
and every update maps `[0, thinkInterval]` into itself (the reset tick
produces `thinkInterval` exactly). -/
theorem C5_think_countdown_bounds (cfgG : Config)
    (agentEnabled resolvable : Bool) (fsmState : String) (r : ℚ) (cd : Int)
    (hpos : 0 < cfgG.thinkInterval) (hr0 : 0 ≤ r) (hr1 : r < 1)
    (hlo : 0 ≤ cd) (hhi : cd ≤ cfgG.thinkInterval) :
    (0 ≤ initThinkCd cfgG r ∧ initThinkCd cfgG r < cfgG.thinkInterval) ∧
    (0 ≤ (controllerUpdateGate cfgG agentEnabled resolvable fsmState cd).1 ∧
      (controllerUpdateGate cfgG agentEnabled resolvable fsmState cd).1 ≤
        cfgG.thinkInterval) := by
  constructor
  · constructor
    · apply Int.le_floor.mpr
      push_cast
      have : (0 : ℚ) ≤ (cfgG.thinkInterval : ℚ) := by exact_mod_cast hpos.le
      exact mul_nonneg hr0 this
    · apply Int.floor_lt.mpr
      have hposq : (0 : ℚ) < (cfgG.thinkInterval : ℚ) := by exact_mod_cast hpos
      calc r * (cfgG.thinkInterval : ℚ)
          < 1 * (cfgG.thinkInterval : ℚ) := mul_lt_mul_of_pos_right hr1 hposq
        _ = (cfgG.thinkInterval : ℚ) := one_mul _
  · unfold controllerUpdateGate
    split_ifs <;> simp <;> omega

/-- Closed instance of C5 (amended): jitter draw 1/2 and countdown 3
under the default interval 8. -/
theorem C5_think_countdown_bounds_witness :
    (0 ≤ initThinkCd cfgEx (1/2) ∧
      initThinkCd cfgEx (1/2) < cfgEx.thinkInterval) ∧
    (0 ≤ (controllerUpdateGate cfgEx true true "ACT" 3).1 ∧
      (controllerUpdateGate cfgEx true true "ACT" 3).1 ≤
        cfgEx.thinkInterval) :=
  C5_think_countdown_bounds cfgEx true true "ACT" (1/2) 3
    (by decide) (by norm_num) (by norm_num) (by decide) (by decide)

/-- C6: on an enabled, resolvable tick the gate decrements the
countdown whenever it is positive and runs no decision logic; the
decision logic runs exactly when the countdown has reached zero, and
then the countdown resets to the configured think interval.  The result
does not depend on the FSM state in any way. -/
theorem C6_think_gate_behavior (cfgG : Config)
    (agentEnabled resolvable : Bool) (fsmState : String) (cd : Int)
    (hen : cfgG.enabled = true) (hag : agentEnabled = true)
    (hres : resolvable = true) (hcd : 0 ≤ cd) :
    (0 < cd →
      controllerUpdateGate cfgG agentEnabled resolvable fsmState cd =
        (cd - 1, false)) ∧
    (cd = 0 →
      controllerUpdateGate cfgG agentEnabled resolvable fsmState cd =
        (cfgG.thinkInterval, true)) ∧
    ((controllerUpdateGate cfgG agentEnabled resolvable fsmState cd).2 = true
      ↔ cd = 0) ∧
    (∀ fsmState2 : String,
      controllerUpdateGate cfgG agentEnabled resolvable fsmState cd =
        controllerUpdateGate cfgG agentEnabled resolvable fsmState2 cd) := by
  refine ⟨?_, ?_, ⟨?_, ?_⟩, ?_⟩
  · intro h
    simp [controllerUpdateGate, hen, hag, hres, h]
  · intro h
    subst h
    simp [controllerUpdateGate, hen, hag, hres]
  · intro h2
    by_contra hne
    have hgt : 0 < cd := lt_of_le_of_ne hcd (Ne.symm hne)
    simp [controllerUpdateGate, hen, hag, hres, hgt] at h2
  · intro h
    subst h
    simp [controllerUpdateGate, hen, hag, hres]
  · intro fsmState2
    rfl

/-- Closed instance of C6: countdown 0 runs the decision logic and
resets to the interval. -/
theorem C6_think_gate_behavior_witness :
    controllerUpdateGate cfgEx true true "FOLLOW" 0 =
      (cfgEx.thinkInterval, true) :=
  (C6_think_gate_behavior cfgEx true true "FOLLOW" 0 rfl rfl rfl
    (le_refl 0)).2.1 rfl

/-- `actTank`'s protected-role test (`r === RANGED || r === HEALER` on
the actor's configured role). -/
def tankProtectedOf (r : String) : Bool :=
  r == "RANGED" || r == "HEALER"

/-- `Controller.actRanged`: fall back to a fresh pick when no stored
target; kite melee-type targets inside keep distance with a move-away
plus a sidestep, else close distance when beyond preferred range; fire
the attack tool when configured; return to ACQUIRE. -/
def actRanged (cfg : AgentCfg) (ch : Pos) (stored : Option Enemy)
    (enemies : List Enemy) : List Intent × String :=
  match stored.orElse (fun _ => pickTarget "RANGED" ch enemies) with
  | none => ([], "FOLLOW")
  | some t =>
    let d := distTiles ch t.pos
    let moves :=
      if t.etype = "MELEE" ∧ d ≤ cfg.keepDistance then
        [Intent.move MoveKind.away (TargetRef.enemy t),
         Intent.move MoveKind.sidestep (TargetRef.enemy t)]
      else if d > cfg.preferredRange then
        [Intent.move MoveKind.toward (TargetRef.enemy t)]
      else []
    (moves ++
      (if cfg.toolAttack > 0 then [Intent.tool cfg.toolAttack 0] else []),
      "ACQUIRE")

/-- `Controller.actMelee`: pursue and attack, return to ACQUIRE. -/
def actMelee (cfg : AgentCfg) (ch : Pos) (stored : Option Enemy)
    (enemies : List Enemy) : List Intent × String :=
  match stored.orElse (fun _ => pickTarget "MELEE" ch enemies) with
  | none => ([], "FOLLOW")
  | some t =>
    ([Intent.move MoveKind.toward (TargetRef.enemy t)] ++
      (if cfg.toolAttack > 0 then [Intent.tool cfg.toolAttack 0] else []),
      "ACQUIRE")

/-- `Controller.actTank`: find the nearest protected (ranged/healer)
ally's character; peel the first enemy within the protect radius of it,
else pick the nearest enemy; pursue and attack, return to ACQUIRE. -/
def actTank (cfg : AgentCfg) (ch : Pos) (members : List PartyMember)
    (enemies : List Enemy) : List Intent × String :=
  let protectedIds := members.filterMap (fun m => m.actor.bind (fun a =>
    if tankProtectedOf a.role then some m.id else none))
  let pc := (protectedIds.foldl (fun (acc : Option Pos × Nat) aid =>
      match charOf members aid with
      | none => acc
      | some p =>
        if distTiles ch p < acc.2 then (some p, distTiles ch p) else acc)
    (none, 9999)).1
  let peel :=
    match pc with
    | some p =>
      enemies.find? (fun (e : Enemy) => decide (distTiles p e.pos ≤ cfg.protectRadius))
    | none => none
  match peel.orElse (fun _ => pickTarget "TANK" ch enemies) with
  | none => ([], "FOLLOW")
  | some t =>
    ([Intent.move MoveKind.toward (TargetRef.enemy t)] ++
      (if cfg.toolAttack > 0 then [Intent.tool cfg.toolAttack 0] else []),
      "ACQUIRE")

lemma countMoves_le_length (l : List Intent) : countMoves l ≤ l.length :=
  List.length_filter_le _ _

lemma countTools_le_length (l : List Intent) : countTools l ≤ l.length :=
  List.length_filter_le _ _

lemma doHealerHeal_length_le_one (inp : HealerInput) (uc : Pos)
    (targetId : Int) : (doHealerHeal inp uc targetId).length ≤ 1 := by
  unfold doHealerHeal
  repeat' split
  all_goals simp

lemma doHealerBuff_fst_length_le_one (inp : HealerInput) (uc : Pos)
    (targetId : Int) : (doHealerBuff inp uc targetId).1.length ≤ 1 := by
  unfold doHealerBuff
  repeat' split
  all_goals simp

lemma healerDefendPhase_intents_length_le_one (inp : HealerInput) (uc : Pos)
    (s1 : HealerCombatState) :
    (healerDefendPhase inp uc s1).intents.length ≤ 1 := by
  unfold healerDefendPhase
  repeat' split
  all_goals simp

lemma healerBuffPhase_intents_length_le_one (inp : HealerInput) (uc : Pos)
    (s1 : HealerCombatState) :
    (healerBuffPhase inp uc s1).intents.length ≤ 1 := by
  unfold healerBuffPhase
  split
  · split
    · split
      · exact doHealerBuff_fst_length_le_one _ _ _
      · exact healerDefendPhase_intents_length_le_one _ _ _
    · exact healerDefendPhase_intents_length_le_one _ _ _
  · exact healerDefendPhase_intents_length_le_one _ _ _

lemma actHealer_intents_length_le_one (inp : HealerInput)
    (s : HealerCombatState) : (actHealer inp s).intents.length ≤ 1 := by
  unfold actHealer
  split
  · split
    · split
      · exact doHealerHeal_length_le_one _ _ _
      · split
        · exact doHealerHeal_length_le_one _ _ _
        · exact healerBuffPhase_intents_length_le_one _ _ _
    · exact healerBuffPhase_intents_length_le_one _ _ _
  · simp

/-- Sample ranged agent config. -/
def rangedCfgEx : AgentCfg :=
  { enabled := true, role := "RANGED", stance := "AGGRESSIVE",
    aggro := 6, leash := 10, preferredRange := 4, keepDistance := 4,
    protectRadius := 5, toolAttack := 5, toolDefend := 0,
    toolHeal := 0, toolBuff := 0 }

/-- A melee-type enemy one tile away from the origin. -/
def enemyMeleeEx : Enemy := { pos := { x := 1, y := 0 }, etype := "MELEE" }

/-- C7 counterexample: the ranged kiting branch issues a move-away plus
a sidestep — two movement intents in one ACT think, not at most one. -/
theorem C7_counterexample_ranged_kite_two_moves :
    ¬ (countMoves (actRanged rangedCfgEx { x := 0, y := 0 }
        (some enemyMeleeEx) []).1 ≤ 1) := by
  decide

lemma countMoves_append (a b : List Intent) :
    countMoves (a ++ b) = countMoves a + countMoves b := by
  simp [countMoves, List.filter_append]

lemma countTools_append (a b : List Intent) :
    countTools (a ++ b) = countTools a + countTools b := by
  simp [countTools, List.filter_append]

lemma countMoves_tool_opt (c : Prop) [Decidable c] (a b : Int) :
    countMoves (if c then [Intent.tool a b] else []) = 0 := by
  split <;> simp [countMoves, Intent.isMove]

lemma countTools_tool_opt (c : Prop) [Decidable c] (a b : Int) :
    countTools (if c then [Intent.tool a b] else []) ≤ 1 := by
  split <;> simp [countTools, Intent.isTool]

/-- C7 (amended): every role ACT behavior issues at most two movement
intents — with two occurring exactly in the ranged kiting branch
(melee-type target within keep distance) — and at most one ability
intent; ranged, melee and tank return to ACQUIRE whenever they engaged
a target. -/
theorem C7_act_intent_bounds (cfg : AgentCfg) (ch : Pos)
    (stored : Option Enemy) (enemies : List Enemy)
    (members : List PartyMember) (inp : HealerInput)
    (s : HealerCombatState) :
    (countMoves (actRanged cfg ch stored enemies).1 ≤ 2 ∧
      countTools (actRanged cfg ch stored enemies).1 ≤ 1 ∧
      (countMoves (actRanged cfg ch stored enemies).1 = 2 →
        ∃ t, stored.orElse (fun _ => pickTarget "RANGED" ch enemies) = some t ∧
          t.etype = "MELEE" ∧ distTiles ch t.pos ≤ cfg.keepDistance) ∧
      (∀ t, stored.orElse (fun _ => pickTarget "RANGED" ch enemies) = some t →
        (actRanged cfg ch stored enemies).2 = "ACQUIRE")) ∧
    (countMoves (actMelee cfg ch stored enemies).1 ≤ 1 ∧
      countTools (actMelee cfg ch stored enemies).1 ≤ 1 ∧
      (∀ t, stored.orElse (fun _ => pickTarget "MELEE" ch enemies) = some t →
        (actMelee cfg ch stored enemies).2 = "ACQUIRE")) ∧
    (countMoves (actTank cfg ch members enemies).1 ≤ 1 ∧
      countTools (actTank cfg ch members enemies).1 ≤ 1) ∧
    (countMoves (actHealer inp s).intents ≤ 1 ∧
      countTools (actHealer inp s).intents ≤ 1) := by
  refine ⟨?_, ?_, ?_, ?_⟩
  · simp only [actRanged]
    cases hres : stored.orElse (fun _ => pickTarget "RANGED" ch enemies) with
    | none => simp [countMoves, countTools]
    | some t =>
      dsimp only
      by_cases hk : t.etype = "MELEE" ∧ distTiles ch t.pos ≤ cfg.keepDistance
      · rw [if_pos hk]
        refine ⟨?_, ?_, ?_, ?_⟩
        · rw [countMoves_append, countMoves_tool_opt]
          simp [countMoves, Intent.isMove]
        · rw [countTools_append]
          have h1 : countTools [Intent.move MoveKind.away (TargetRef.enemy t),
              Intent.move MoveKind.sidestep (TargetRef.enemy t)] = 0 := by
            simp [countTools, Intent.isTool]
          rw [h1]
          simpa using countTools_tool_opt _ cfg.toolAttack 0
        · exact fun _ => ⟨t, rfl, hk.1, hk.2⟩
        · intro t2 _
          rfl
      · rw [if_neg hk]
        by_cases hpr : distTiles ch t.pos > cfg.preferredRange
        · rw [if_pos hpr]
          refine ⟨?_, ?_, ?_, ?_⟩
          · rw [countMoves_append, countMoves_tool_opt]
            simp [countMoves, Intent.isMove]
          · rw [countTools_append]
            have h1 : countTools
                [Intent.move MoveKind.toward (TargetRef.enemy t)] = 0 := by
              simp [countTools, Intent.isTool]
            rw [h1]
            simpa using countTools_tool_opt _ cfg.toolAttack 0
          · intro habs
            rw [countMoves_append, countMoves_tool_opt] at habs
            simp [countMoves, Intent.isMove] at habs
          · intro t2 _
            rfl
        · rw [if_neg hpr]
          refine ⟨?_, ?_, ?_, ?_⟩
          · rw [countMoves_append, countMoves_tool_opt]
            simp [countMoves]
          · rw [countTools_append]
            have h1 : countTools ([] : List Intent) = 0 := rfl
            rw [h1]
            simpa using countTools_tool_opt _ cfg.toolAttack 0
          · intro habs
            rw [countMoves_append, countMoves_tool_opt] at habs
            simp [countMoves] at habs
          · intro t2 _
            rfl
  · simp only [actMelee]
    cases hres : stored.orElse (fun _ => pickTarget "MELEE" ch enemies) with
    | none => simp [countMoves, countTools]
    | some t =>
      dsimp only
      refine ⟨?_, ?_, ?_⟩
      · rw [countMoves_append, countMoves_tool_opt]
        simp [countMoves, Intent.isMove]
      · rw [countTools_append]
        have h1 : countTools
            [Intent.move MoveKind.toward (TargetRef.enemy t)] = 0 := by
          simp [countTools, Intent.isTool]
        rw [h1]
        simpa using countTools_tool_opt _ cfg.toolAttack 0
      · intro t2 _
        rfl
  · simp only [actTank]
    split
    · simp [countMoves, countTools]
    · next t heq =>
      constructor
      · rw [countMoves_append, countMoves_tool_opt]
        simp [countMoves, Intent.isMove]
      · rw [countTools_append]
        have h1 : countTools
            [Intent.move MoveKind.toward (TargetRef.enemy t)] = 0 := by
          simp [countTools, Intent.isTool]
        rw [h1]
        simpa using countTools_tool_opt _ cfg.toolAttack 0
  · constructor
    · exact le_trans (countMoves_le_length _)
        (actHealer_intents_length_le_one inp s)
    · exact le_trans (countTools_le_length _)
        (actHealer_intents_length_le_one inp s)

/-- Closed instance of C7 (amended): the two-movement case really is
the kiting configuration (melee-type target inside keep distance). -/
theorem C7_act_intent_bounds_witness :
    ∃ t, (some enemyMeleeEx).orElse
        (fun _ => pickTarget "RANGED" { x := 0, y := 0 } []) = some t ∧
      t.etype = "MELEE" ∧
      distTiles { x := 0, y := 0 } t.pos ≤ rangedCfgEx.keepDistance :=
  (C7_act_intent_bounds rangedCfgEx { x := 0, y := 0 } (some enemyMeleeEx)
    [] [] inpC4 { buffed := [], buffQueue := [], combatStartFrameSeen := 0 }
    ).1.2.2.1 (by decide)

/-- `Controller.role()`: `String(this.cfg.role || "MELEE").toUpperCase()`
then `Roles[r] ? r : Roles.MELEE` — empty falls back to MELEE, and any
string outside the four known keys resolves to MELEE.  This resolved
role drives the FSM dispatch (`thinkAct`) and the `pickTarget` calls. -/
def roleResolve (r : String) : String :=
  let r2 := if r = "" then "MELEE" else r
  if r2 = "RANGED" ∨ r2 = "MELEE" ∨ r2 = "TANK" ∨ r2 = "HEALER" then r2
  else "MELEE"

/-- Roster in which actor 2 carries the unknown role string
"SUPPORT". -/
def membersUnknownEx : List PartyMember :=
  [{ id := 1, actor := some { role := "MELEE", dead := false, hpPct := 100 },
     charPos := some { x := 0, y := 0 } },
   { id := 2, actor := some { role := "SUPPORT", dead := false, hpPct := 100 },
     charPos := some { x := 1, y := 0 } },
   { id := 3, actor := some { role := "MELEE", dead := false, hpPct := 100 },
     charPos := some { x := 2, y := 0 } }]

/-- The same roster with actor 2 given the role MELEE instead. -/
def membersUnknownAsMeleeEx : List PartyMember :=
  [{ id := 1, actor := some { role := "MELEE", dead := false, hpPct := 100 },
     charPos := some { x := 0, y := 0 } },
   { id := 2, actor := some { role := "MELEE", dead := false, hpPct := 100 },
     charPos := some { x := 1, y := 0 } },
   { id := 3, actor := some { role := "MELEE", dead := false, hpPct := 100 },
     charPos := some { x := 2, y := 0 } }]

/-- C8 counterexample: the healer's buff-queue grouping does not treat
the unknown role "SUPPORT" as MELEE — actor 2 lands in the ranged
group (queue `[1, 3, 2]`), whereas an actual MELEE actor 2 would sit in
the melee group (queue `[1, 2, 3]`). -/
theorem C8_counterexample_unknown_role_in_ranged_group :
    buildHealerBuffQueue 1 membersUnknownEx = [1, 3, 2] ∧
    buildHealerBuffQueue 1 membersUnknownAsMeleeEx = [1, 2, 3] ∧
    ([1, 3, 2] : List Int) ≠ [1, 2, 3] := by
  refine ⟨by decide, by decide, by decide⟩

/-- C8 (amended): an unknown, non-empty role string resolves to MELEE
in `Controller.role()` (hence in the FSM dispatch and target
selection), and the tank's protected-ally test treats it like MELEE
(not protected); but the healer's buff-queue grouping places it in the
ranged group, unlike MELEE, which lands in the melee group. -/
theorem C8_unknown_role_resolution (r : String)
    (hunk : knownRole r = false) (hne : r ≠ "") :
    roleResolve r = "MELEE" ∧
    tankProtectedOf r = tankProtectedOf "MELEE" ∧
    buffGroupOf r = BuffGroup.ranged ∧
    buffGroupOf "MELEE" = BuffGroup.melee := by
  simp only [knownRole, Bool.or_eq_false_iff, beq_eq_false_iff_ne] at hunk
  obtain ⟨⟨⟨h1, h2⟩, h3⟩, h4⟩ := hunk
  refine ⟨?_, ?_, ?_, by decide⟩
  · simp only [roleResolve, if_neg hne]
    rw [if_neg]
    intro hc
    rcases hc with hc | hc | hc | hc
    · exact h1 hc
    · exact h2 hc
    · exact h3 hc
    · exact h4 hc
  · have hrhs : tankProtectedOf "MELEE" = false := by decide
    rw [hrhs]
    simp only [tankProtectedOf, Bool.or_eq_false_iff, beq_eq_false_iff_ne]
    exact ⟨h1, h4⟩
  · unfold buffGroupOf
    rw [if_neg h4, if_neg]
    intro hc
    rcases hc with hc | hc
    · exact h3 hc
    · exact h2 hc

/-- Closed instance of C8 (amended) at the unknown role "SUPPORT". -/
theorem C8_unknown_role_resolution_witness :
    roleResolve "SUPPORT" = "MELEE" ∧
    tankProtectedOf "SUPPORT" = tankProtectedOf "MELEE" ∧
    buffGroupOf "SUPPORT" = BuffGroup.ranged ∧
    buffGroupOf "MELEE" = BuffGroup.melee :=
  C8_unknown_role_resolution "SUPPORT" (by decide) (by decide)

/-- One entry of the roster as `Manager.sync` sees it: the actor id and
(when `$gameActors.actor(id)` resolves) whether its notetag config has
AI enabled. -/
structure SyncEntry where
  id : Int
  actor : Option Bool
  deriving Repr, DecidableEq

/-- The per-member body of the `Manager.sync` creation loop: skip the
leader, skip unresolvable actors, drop the controller of an AI-disabled
member, create (append) a controller for an AI-enabled member that has
none.  The controller map is modelled by its key list in insertion
order. -/
def syncStep (leaderId : Int) (cs : List Int) (e : SyncEntry) : List Int :=
  if e.id = leaderId then cs
  else
    match e.actor with
    | none => cs
    | some aiEnabled =>
      if !aiEnabled then cs.filter (fun c => c != e.id)
      else if cs.contains e.id then cs
      else cs ++ [e.id]

/-- `Manager.sync`: the creation loop over the party followed by the
removal of controllers whose actors left the party. -/
def syncControllers (cfgEnabled : Bool) (leaderId : Int)
    (party : List SyncEntry) (ctrls : List Int) : List Int :=
  if !cfgEnabled then ctrls
  else
    (party.foldl (syncStep leaderId) ctrls).filter
      (fun c => (party.map (fun e => e.id)).contains c)

/-- C9 counterexample: actor 2 held a controller while a non-leader;
after a reorder makes 2 the leader, `sync` keeps that controller — the
leader stays AI-driven. -/
theorem C9_counterexample_leader_keeps_stale_controller :
    (syncControllers true 2
        [{ id := 2, actor := some true }, { id := 1, actor := some true }]
        [2]).contains 2 = true := by
  decide

/-- The creation loop never appends the leader's id. -/
lemma syncStep_foldl_not_mem (leaderId : Int) :
    ∀ (party : List SyncEntry) (cs : List Int), leaderId ∉ cs →
      leaderId ∉ party.foldl (syncStep leaderId) cs := by
  intro party
  induction party with
  | nil => exact fun cs h => h
  | cons e rest ih =>
    intro cs h
    refine ih (syncStep leaderId cs e) ?_
    unfold syncStep
    split
    · exact h
    · next hne =>
      cases e.actor with
      | none => exact h
      | some aiEnabled =>
        dsimp only
        split
        · intro hmem
          exact h (List.mem_of_mem_filter hmem)
        · split
          · exact h
          · intro hmem
            rcases List.mem_append.mp hmem with hmem | hmem
            · exact h hmem
            · simp only [List.mem_singleton] at hmem
              exact hne hmem.symm

/-- C9 (amended): `Manager.sync` never creates a controller for the
current leader — if the leader id has no controller before a sync it
has none after — but a controller created while an actor was a
non-leader survives that actor becoming leader (the counterexample),
so "the leader is never AI-driven" does not hold across leader
changes. -/
theorem C9_leader_controller_never_created (cfgEnabled : Bool)
    (leaderId : Int) (party : List SyncEntry) (ctrls : List Int)
    (h : leaderId ∉ ctrls) :
    leaderId ∉ syncControllers cfgEnabled leaderId party ctrls := by
  unfold syncControllers
  split
  · exact h
  · intro hmem
    exact syncStep_foldl_not_mem leaderId party ctrls h
      (List.mem_of_mem_filter hmem)

/-- Closed instance of C9 (amended): starting from an empty controller
map, a sync with leader 2 creates no controller for 2. -/
theorem C9_leader_controller_never_created_witness :
    (2 : Int) ∉ syncControllers true 2
      [{ id := 2, actor := some true }, { id := 1, actor := some true }]
      [] :=
  C9_leader_controller_never_created true 2
    [{ id := 2, actor := some true }, { id := 1, actor := some true }]
    [] (by decide)
